import Mathlib

/-!
Verification of the 6502 CPU core in src/nes-core/src/cpu.rs.

Machine integers are embedded as Nat with explicit reduction modulo 2^8 or
2^16 where the Rust code wraps.  Fallible operations (array indexing that can
panic, the unreachable-addressing-mode panic, the todo arm of the dispatch)
return Option / explicit outcome types.
-/

namespace Nes

/-- Model of bit_field's get_bit on u8: bit i of b. -/
def getBit (b i : Nat) : Bool := b.testBit i

/-- Model of bit_field's set_bit on u8: sets bit i of b to v
(b | (1 << i) when v, b & !(1 << i) on a u8 when not v). -/
def setBit (b i : Nat) (v : Bool) : Nat :=
  if v then b ||| 2 ^ i else b &&& (255 ^^^ 2 ^ i)

theorem testBit_255 {i : Nat} (h : i < 8) : Nat.testBit 255 i = true := by
  interval_cases i <;> decide

theorem setBit_testBit_same (b : Nat) {i : Nat} (v : Bool) (hi : i < 8) :
    (setBit b i v).testBit i = v := by
  cases v with
  | true =>
    simp [setBit, Nat.testBit_or, Nat.testBit_two_pow_self]
  | false =>
    simp [setBit, Nat.testBit_and, Nat.testBit_xor, Nat.testBit_two_pow_self,
      testBit_255 hi]

theorem setBit_testBit_ne (b : Nat) {i j : Nat} (v : Bool) (hj : j < 8)
    (hij : i ≠ j) : (setBit b i v).testBit j = b.testBit j := by
  cases v with
  | true =>
    simp [setBit, Nat.testBit_or, Nat.testBit_two_pow_of_ne hij]
  | false =>
    simp [setBit, Nat.testBit_and, Nat.testBit_xor, testBit_255 hj,
      Nat.testBit_two_pow_of_ne hij]

theorem and_255_eq_mod (x : Nat) : x &&& 255 = x % 256 := by
  have h : (255 : Nat) = 2 ^ 8 - 1 := by norm_num
  rw [h, Nat.and_pow_two_sub_one_eq_mod]

theorem and_128_ne_zero (n : Nat) : decide (n &&& 128 ≠ 0) = n.testBit 7 := by
  have h : (128 : Nat) = 2 ^ 7 := by norm_num
  rw [h, Nat.and_two_pow]
  cases hb : n.testBit 7 <;> simp [hb]

/-- Addressing modes, from enum AddressingMode in cpu.rs. -/
inductive AddressingMode where
  | Immediate
  | ZeroPage
  | ZeroPage_X
  | ZeroPage_Y
  | Absolute
  | Absolute_X
  | Absolute_Y
  | Indirect_X
  | Indirect_Y
  | NoneAddressing
deriving DecidableEq

/-- Entry of the opcode table: the fields the execution engine consumes
(instruction byte length and addressing mode). -/
structure OpCode where
  len : Nat
  mode : AddressingMode
deriving DecidableEq

/-- Modelled from the spec: the static opcode table of the opcodes module
(file not present under src/).  Per the spec it is a read-only mapping from a
one-byte opcode to its addressing mode and instruction byte length, covering
the full documented 6502 instruction set (official opcodes only); lookup of a
byte not present is a decode failure. -/
def opcodeLookup (code : Nat) : Option OpCode :=
  match code with
  | 0x00 => some ⟨1, .NoneAddressing⟩
  | 0x01 => some ⟨2, .Indirect_X⟩
  | 0x05 => some ⟨2, .ZeroPage⟩
  | 0x06 => some ⟨2, .ZeroPage⟩
  | 0x08 => some ⟨1, .NoneAddressing⟩
  | 0x09 => some ⟨2, .Immediate⟩
  | 0x0a => some ⟨1, .NoneAddressing⟩
  | 0x0d => some ⟨3, .Absolute⟩
  | 0x0e => some ⟨3, .Absolute⟩
  | 0x10 => some ⟨2, .NoneAddressing⟩
  | 0x11 => some ⟨2, .Indirect_Y⟩
  | 0x15 => some ⟨2, .ZeroPage_X⟩
  | 0x16 => some ⟨2, .ZeroPage_X⟩
  | 0x18 => some ⟨1, .NoneAddressing⟩
  | 0x19 => some ⟨3, .Absolute_Y⟩
  | 0x1d => some ⟨3, .Absolute_X⟩
  | 0x1e => some ⟨3, .Absolute_X⟩
  | 0x20 => some ⟨3, .NoneAddressing⟩
  | 0x21 => some ⟨2, .Indirect_X⟩
  | 0x24 => some ⟨2, .ZeroPage⟩
  | 0x25 => some ⟨2, .ZeroPage⟩
  | 0x26 => some ⟨2, .ZeroPage⟩
  | 0x28 => some ⟨1, .NoneAddressing⟩
  | 0x29 => some ⟨2, .Immediate⟩
  | 0x2a => some ⟨1, .NoneAddressing⟩
  | 0x2c => some ⟨3, .Absolute⟩
  | 0x2d => some ⟨3, .Absolute⟩
  | 0x2e => some ⟨3, .Absolute⟩
  | 0x30 => some ⟨2, .NoneAddressing⟩
  | 0x31 => some ⟨2, .Indirect_Y⟩
  | 0x35 => some ⟨2, .ZeroPage_X⟩
  | 0x36 => some ⟨2, .ZeroPage_X⟩
  | 0x38 => some ⟨1, .NoneAddressing⟩
  | 0x39 => some ⟨3, .Absolute_Y⟩
  | 0x3d => some ⟨3, .Absolute_X⟩
  | 0x3e => some ⟨3, .Absolute_X⟩
  | 0x40 => some ⟨1, .NoneAddressing⟩
  | 0x41 => some ⟨2, .Indirect_X⟩
  | 0x45 => some ⟨2, .ZeroPage⟩
  | 0x46 => some ⟨2, .ZeroPage⟩
  | 0x48 => some ⟨1, .NoneAddressing⟩
  | 0x49 => some ⟨2, .Immediate⟩
  | 0x4a => some ⟨1, .NoneAddressing⟩
  | 0x4c => some ⟨3, .NoneAddressing⟩
  | 0x4d => some ⟨3, .Absolute⟩
  | 0x4e => some ⟨3, .Absolute⟩
  | 0x50 => some ⟨2, .NoneAddressing⟩
  | 0x51 => some ⟨2, .Indirect_Y⟩
  | 0x55 => some ⟨2, .ZeroPage_X⟩
  | 0x56 => some ⟨2, .ZeroPage_X⟩
  | 0x58 => some ⟨1, .NoneAddressing⟩
  | 0x59 => some ⟨3, .Absolute_Y⟩
  | 0x5d => some ⟨3, .Absolute_X⟩
  | 0x5e => some ⟨3, .Absolute_X⟩
  | 0x60 => some ⟨1, .NoneAddressing⟩
  | 0x61 => some ⟨2, .Indirect_X⟩
  | 0x65 => some ⟨2, .ZeroPage⟩
  | 0x66 => some ⟨2, .ZeroPage⟩
  | 0x68 => some ⟨1, .NoneAddressing⟩
  | 0x69 => some ⟨2, .Immediate⟩
  | 0x6a => some ⟨1, .NoneAddressing⟩
  | 0x6c => some ⟨3, .NoneAddressing⟩
  | 0x6d => some ⟨3, .Absolute⟩
  | 0x6e => some ⟨3, .Absolute⟩
  | 0x70 => some ⟨2, .NoneAddressing⟩
  | 0x71 => some ⟨2, .Indirect_Y⟩
  | 0x75 => some ⟨2, .ZeroPage_X⟩
  | 0x76 => some ⟨2, .ZeroPage_X⟩
  | 0x78 => some ⟨1, .NoneAddressing⟩
  | 0x79 => some ⟨3, .Absolute_Y⟩
  | 0x7d => some ⟨3, .Absolute_X⟩
  | 0x7e => some ⟨3, .Absolute_X⟩
  | 0x81 => some ⟨2, .Indirect_X⟩
  | 0x84 => some ⟨2, .ZeroPage⟩
  | 0x85 => some ⟨2, .ZeroPage⟩
  | 0x86 => some ⟨2, .ZeroPage⟩
  | 0x88 => some ⟨1, .NoneAddressing⟩
  | 0x8a => some ⟨1, .NoneAddressing⟩
  | 0x8c => some ⟨3, .Absolute⟩
  | 0x8d => some ⟨3, .Absolute⟩
  | 0x8e => some ⟨3, .Absolute⟩
  | 0x90 => some ⟨2, .NoneAddressing⟩
  | 0x91 => some ⟨2, .Indirect_Y⟩
  | 0x94 => some ⟨2, .ZeroPage_X⟩
  | 0x95 => some ⟨2, .ZeroPage_X⟩
  | 0x96 => some ⟨2, .ZeroPage_Y⟩
  | 0x98 => some ⟨1, .NoneAddressing⟩
  | 0x99 => some ⟨3, .Absolute_Y⟩
  | 0x9a => some ⟨1, .NoneAddressing⟩
  | 0x9d => some ⟨3, .Absolute_X⟩
  | 0xa0 => some ⟨2, .Immediate⟩
  | 0xa1 => some ⟨2, .Indirect_X⟩
  | 0xa2 => some ⟨2, .Immediate⟩
  | 0xa4 => some ⟨2, .ZeroPage⟩
  | 0xa5 => some ⟨2, .ZeroPage⟩
  | 0xa6 => some ⟨2, .ZeroPage⟩
  | 0xa8 => some ⟨1, .NoneAddressing⟩
  | 0xa9 => some ⟨2, .Immediate⟩
  | 0xaa => some ⟨1, .NoneAddressing⟩
  | 0xac => some ⟨3, .Absolute⟩
  | 0xad => some ⟨3, .Absolute⟩
  | 0xae => some ⟨3, .Absolute⟩
  | 0xb0 => some ⟨2, .NoneAddressing⟩
  | 0xb1 => some ⟨2, .Indirect_Y⟩
  | 0xb4 => some ⟨2, .ZeroPage_X⟩
  | 0xb5 => some ⟨2, .ZeroPage_X⟩
  | 0xb6 => some ⟨2, .ZeroPage_Y⟩
  | 0xb8 => some ⟨1, .NoneAddressing⟩
  | 0xb9 => some ⟨3, .Absolute_Y⟩
  | 0xba => some ⟨1, .NoneAddressing⟩
  | 0xbc => some ⟨3, .Absolute_X⟩
  | 0xbd => some ⟨3, .Absolute_X⟩
  | 0xbe => some ⟨3, .Absolute_Y⟩
  | 0xc0 => some ⟨2, .Immediate⟩
  | 0xc1 => some ⟨2, .Indirect_X⟩
  | 0xc4 => some ⟨2, .ZeroPage⟩
  | 0xc5 => some ⟨2, .ZeroPage⟩
  | 0xc6 => some ⟨2, .ZeroPage⟩
  | 0xc8 => some ⟨1, .NoneAddressing⟩
  | 0xc9 => some ⟨2, .Immediate⟩
  | 0xca => some ⟨1, .NoneAddressing⟩
  | 0xcc => some ⟨3, .Absolute⟩
  | 0xcd => some ⟨3, .Absolute⟩
  | 0xce => some ⟨3, .Absolute⟩
  | 0xd0 => some ⟨2, .NoneAddressing⟩
  | 0xd1 => some ⟨2, .Indirect_Y⟩
  | 0xd5 => some ⟨2, .ZeroPage_X⟩
  | 0xd6 => some ⟨2, .ZeroPage_X⟩
  | 0xd8 => some ⟨1, .NoneAddressing⟩
  | 0xd9 => some ⟨3, .Absolute_Y⟩
  | 0xdd => some ⟨3, .Absolute_X⟩
  | 0xde => some ⟨3, .Absolute_X⟩
  | 0xe0 => some ⟨2, .Immediate⟩
  | 0xe1 => some ⟨2, .Indirect_X⟩
  | 0xe4 => some ⟨2, .ZeroPage⟩
  | 0xe5 => some ⟨2, .ZeroPage⟩
  | 0xe6 => some ⟨2, .ZeroPage⟩
  | 0xe8 => some ⟨1, .NoneAddressing⟩
  | 0xe9 => some ⟨2, .Immediate⟩
  | 0xea => some ⟨1, .NoneAddressing⟩
  | 0xec => some ⟨3, .Absolute⟩
  | 0xed => some ⟨3, .Absolute⟩
  | 0xee => some ⟨3, .Absolute⟩
  | 0xf0 => some ⟨2, .NoneAddressing⟩
  | 0xf1 => some ⟨2, .Indirect_Y⟩
  | 0xf5 => some ⟨2, .ZeroPage_X⟩
  | 0xf6 => some ⟨2, .ZeroPage_X⟩
  | 0xf8 => some ⟨1, .NoneAddressing⟩
  | 0xf9 => some ⟨3, .Absolute_Y⟩
  | 0xfd => some ⟨3, .Absolute_X⟩
  | 0xfe => some ⟨3, .Absolute_X⟩
  | _ => none

/-- Status-register bit positions, from cpu.rs. -/
def STATUS_BIT_N : Nat := 7
def STATUS_BIT_V : Nat := 6
def STATUS_BIT_D : Nat := 3
def STATUS_BIT_I : Nat := 2
def STATUS_BIT_Z : Nat := 1
def STATUS_BIT_C : Nat := 0

def NEGATIVE_BIT : Nat := 7
def MSB : Nat := 7

def STACK_RESET : Nat := 0xfd
def STACK_BASE : Nat := 0x100

/-- Length of the memory array in cpu.rs: memory is declared [u8; 0xFFFF],
i.e. 0xFFFF = 65535 bytes. -/
def MEMORY_LEN : Nat := 0xFFFF

/-- Processor state, from struct CPU in cpu.rs.  Registers are u8/u16 values
embedded as Nat; memory holds the contents of the byte array [u8; 0xFFFF] as
a function on indices (indices at or above MEMORY_LEN are never readable:
see mem_read / mem_write). -/
structure CPU where
  pc : Nat
  reg_a : Nat
  sp : Nat
  index_reg_x : Nat
  index_reg_y : Nat
  status : Nat
  memory : Nat → Nat

namespace CPU

/-- CPU::mem_read.  Rust indexes the array with addr as usize; an index at or
beyond the array length 0xFFFF panics (none). -/
def mem_read (st : CPU) (addr : Nat) : Option Nat :=
  if addr < MEMORY_LEN then some (st.memory addr) else none

/-- CPU::mem_read_u16: little-endian 16-bit read (lo at addr, hi at addr+1). -/
def mem_read_u16 (st : CPU) (addr : Nat) : Option Nat := do
  let lo ← st.mem_read addr
  let hi ← st.mem_read (addr + 1)
  some (hi <<< 8 ||| lo)

/-- CPU::mem_write.  Out-of-bounds index panics (none). -/
def mem_write (st : CPU) (addr data : Nat) : Option CPU :=
  if addr < MEMORY_LEN then
    some { st with memory := fun i => if i = addr then data else st.memory i }
  else none

/-- CPU::mem_write_u16. -/
def mem_write_u16 (st : CPU) (addr data : Nat) : Option CPU := do
  let lo := data &&& 0xFF
  let hi := (data >>> 8) &&& 0xFF
  let st ← st.mem_write addr lo
  st.mem_write (addr + 1) hi

/-- CPU::reset: zero A, X and status, restore sp, reload pc from the vector
at 0xFFFC. -/
def reset (st : CPU) : Option CPU := do
  let st := { st with reg_a := 0, index_reg_x := 0, status := 0,
                      sp := STACK_RESET }
  let v ← st.mem_read_u16 0xFFFC
  some { st with pc := v }

/-- CPU::stack_pop: sp = sp.wrapping_add(1), then read STACK_BASE + sp.
Returns the popped byte together with the new state. -/
def stack_pop (st : CPU) : Option (Nat × CPU) := do
  let st := { st with sp := (st.sp + 1) % 256 }
  let v ← st.mem_read (STACK_BASE + st.sp)
  some (v, st)

/-- CPU::stack_pop_u16: pop lo, then hi. -/
def stack_pop_u16 (st : CPU) : Option (Nat × CPU) := do
  let (lo, st) ← st.stack_pop
  let (hi, st) ← st.stack_pop
  some (hi <<< 8 ||| lo, st)

/-- CPU::stack_push: write data at STACK_BASE + sp, then
sp = sp.wrapping_sub(1) (as u8, i.e. + 255 mod 256). -/
def stack_push (st : CPU) (data : Nat) : Option CPU := do
  let st ← st.mem_write (STACK_BASE + st.sp) data
  some { st with sp := (st.sp + 255) % 256 }

/-- CPU::stack_push_u16: push hi, then lo. -/
def stack_push_u16 (st : CPU) (data : Nat) : Option CPU := do
  let hi := (data &&& 0xFF00) >>> 8
  let lo := data &&& 0x00FF
  let st ← st.stack_push hi
  st.stack_push lo

/-- CPU::get_operand_address.  Wrapping u8 adds are mod 256, wrapping u16
adds mod 65536; the NoneAddressing arm is a panic (none). -/
def get_operand_address (st : CPU) (mode : AddressingMode) : Option Nat :=
  match mode with
  | .Immediate => some st.pc
  | .ZeroPage => st.mem_read st.pc
  | .Absolute => st.mem_read_u16 st.pc
  | .ZeroPage_X => do
      let pos ← st.mem_read st.pc
      some ((pos + st.index_reg_x) % 256)
  | .ZeroPage_Y => do
      let pos ← st.mem_read st.pc
      some ((pos + st.index_reg_y) % 256)
  | .Absolute_X => do
      let pos ← st.mem_read_u16 st.pc
      some ((pos + st.index_reg_x) % 65536)
  | .Absolute_Y => do
      let pos ← st.mem_read_u16 st.pc
      some ((pos + st.index_reg_y) % 65536)
  | .Indirect_X => do
      let base ← st.mem_read st.pc
      let ptr := (base + st.index_reg_x) % 256
      let lo ← st.mem_read ptr
      let hi ← st.mem_read ((ptr + 1) % 256)
      some (hi <<< 8 ||| lo)
  | .Indirect_Y => do
      let base ← st.mem_read st.pc
      let lo ← st.mem_read base
      let hi ← st.mem_read ((base + 1) % 256)
      let deref_base := hi <<< 8 ||| lo
      some ((deref_base + st.index_reg_y) % 65536)
  | .NoneAddressing => none

/-- CPU::update_zero_and_negative_flags: Z = (reg == 0), then N = bit 7. -/
def update_zero_and_negative_flags (st : CPU) (reg : Nat) : CPU :=
  let st := { st with status := setBit st.status STATUS_BIT_Z (decide (reg = 0)) }
  { st with status := setBit st.status STATUS_BIT_N (getBit reg NEGATIVE_BIT) }

/-- CPU::lda. -/
def lda (st : CPU) (mode : AddressingMode) : Option CPU := do
  let addr ← st.get_operand_address mode
  let v ← st.mem_read addr
  let st := { st with reg_a := v }
  some (st.update_zero_and_negative_flags st.reg_a)

/-- CPU::ldx. -/
def ldx (st : CPU) (mode : AddressingMode) : Option CPU := do
  let addr ← st.get_operand_address mode
  let v ← st.mem_read addr
  let st := { st with index_reg_x := v }
  some (st.update_zero_and_negative_flags st.index_reg_x)

/-- CPU::ldy. -/
def ldy (st : CPU) (mode : AddressingMode) : Option CPU := do
  let addr ← st.get_operand_address mode
  let v ← st.mem_read addr
  let st := { st with index_reg_y := v }
  some (st.update_zero_and_negative_flags st.index_reg_y)

/-- CPU::sta. -/
def sta (st : CPU) (mode : AddressingMode) : Option CPU := do
  let addr ← st.get_operand_address mode
  st.mem_write addr st.reg_a

/-- CPU::stx. -/
def stx (st : CPU) (mode : AddressingMode) : Option CPU := do
  let addr ← st.get_operand_address mode
  st.mem_write addr st.index_reg_x

/-- CPU::sty. -/
def sty (st : CPU) (mode : AddressingMode) : Option CPU := do
  let addr ← st.get_operand_address mode
  st.mem_write addr st.index_reg_y

/-- CPU::adc: widened sum value + A + carry-in; C = sum > 0xFF; V from
((result ^ value) & (result ^ A) & 0x80) != 0 on the truncated result;
A = truncated result; then Z/N from the new A. -/
def adc (st : CPU) (mode : AddressingMode) : Option CPU := do
  let addr ← st.get_operand_address mode
  let value ← st.mem_read addr
  let c := (getBit st.status STATUS_BIT_C).toNat
  let result := value + st.reg_a + c
  let st := { st with status := setBit st.status STATUS_BIT_C (decide (result > 0xFF)) }
  let result := result &&& 0xFF
  let ov := decide (((result ^^^ value) &&& (result ^^^ st.reg_a) &&& 0x80) ≠ 0)
  let st := { st with status := setBit st.status STATUS_BIT_V ov }
  let st := { st with reg_a := result }
  some (st.update_zero_and_negative_flags st.reg_a)

/-- Reinterpretation of a u8 bit pattern as an i8 (Rust value as i8). -/
def asI8 (v : Nat) : Int := if v < 128 then (v : Int) else (v : Int) - 256

/-- Composite of Rust (value as i8).wrapping_neg().wrapping_sub(1) as u8.
All intermediate i8 wraps are congruent mod 256, so the u8 result is the
representative of -(value as i8) - 1 in [0, 256). -/
def negSubOneAsU8 (v : Nat) : Nat := ((-(asI8 v) - 1) % 256).toNat

/-- CPU::sbc: transform the operand by (value as i8).wrapping_neg()
.wrapping_sub(1) as u8, then proceed exactly as adc does. -/
def sbc (st : CPU) (mode : AddressingMode) : Option CPU := do
  let addr ← st.get_operand_address mode
  let value ← st.mem_read addr
  let c := (getBit st.status STATUS_BIT_C).toNat
  let value := negSubOneAsU8 value
  let result := value + st.reg_a + c
  let st := { st with status := setBit st.status STATUS_BIT_C (decide (result > 0xFF)) }
  let result := result &&& 0xFF
  let ov := decide (((result ^^^ value) &&& (result ^^^ st.reg_a) &&& 0x80) ≠ 0)
  let st := { st with status := setBit st.status STATUS_BIT_V ov }
  let st := { st with reg_a := result }
  some (st.update_zero_and_negative_flags st.reg_a)

/-- CPU::and (bitwise AND of A with operand). -/
def andA (st : CPU) (mode : AddressingMode) : Option CPU := do
  let addr ← st.get_operand_address mode
  let v ← st.mem_read addr
  let st := { st with reg_a := st.reg_a &&& v }
  some (st.update_zero_and_negative_flags st.reg_a)

/-- CPU::asl_accumulator: C = bit 7 of A, then A <<= 1 (u8 shift keeps the
low 8 bits). -/
def asl_accumulator (st : CPU) : CPU :=
  let st := { st with status := setBit st.status STATUS_BIT_C (getBit st.reg_a MSB) }
  let st := { st with reg_a := (st.reg_a <<< 1) % 256 }
  st.update_zero_and_negative_flags st.reg_a

/-- CPU::asl (memory operand). -/
def asl (st : CPU) (mode : AddressingMode) : Option CPU := do
  let addr ← st.get_operand_address mode
  let value ← st.mem_read addr
  let st := { st with status := setBit st.status STATUS_BIT_C (getBit value MSB) }
  let value := (value <<< 1) % 256
  let st ← st.mem_write addr value
  some (st.update_zero_and_negative_flags value)

/-- CPU::lsr_accumulator. -/
def lsr_accumulator (st : CPU) : CPU :=
  let value := st.reg_a
  let st := { st with status := setBit st.status STATUS_BIT_C (getBit value 0) }
  let value := value >>> 1
  let st := { st with reg_a := value }
  st.update_zero_and_negative_flags value

/-- CPU::lsr (memory operand). -/
def lsr (st : CPU) (mode : AddressingMode) : Option CPU := do
  let addr ← st.get_operand_address mode
  let value ← st.mem_read addr
  let st := { st with status := setBit st.status STATUS_BIT_C (getBit value 0) }
  let value := value >>> 1
  let st ← st.mem_write addr value
  some (st.update_zero_and_negative_flags value)

/-- CPU::tax. -/
def tax (st : CPU) : CPU :=
  let st := { st with index_reg_x := st.reg_a }
  st.update_zero_and_negative_flags st.index_reg_x

/-- CPU::txa. -/
def txa (st : CPU) : CPU :=
  let st := { st with reg_a := st.index_reg_x }
  st.update_zero_and_negative_flags st.reg_a

/-- CPU::inx. -/
def inx (st : CPU) : CPU :=
  let st := { st with index_reg_x := (st.index_reg_x + 1) % 256 }
  st.update_zero_and_negative_flags st.index_reg_x

/-- CPU::iny. -/
def iny (st : CPU) : CPU :=
  let st := { st with index_reg_y := (st.index_reg_y + 1) % 256 }
  st.update_zero_and_negative_flags st.index_reg_y

/-- Sign extension performed by Rust (jump as i8) as u16 in CPU::branch. -/
def i8AsU16 (v : Nat) : Nat := if v < 128 then v else v + 0xFF00

/-- CPU::branch: when the condition holds, read the displacement byte at pc
and set pc = pc.wrapping_add(1).wrapping_add(jump as u16). -/
def branch (st : CPU) (c : Bool) : Option CPU :=
  if c then do
    let jump ← st.mem_read st.pc
    some { st with pc := (st.pc + 1 + i8AsU16 jump) % 65536 }
  else some st

/-- CPU::bit. -/
def bit (st : CPU) (mode : AddressingMode) : Option CPU := do
  let addr ← st.get_operand_address mode
  let value ← st.mem_read addr
  let result := st.reg_a &&& value
  let st := { st with status := setBit st.status STATUS_BIT_Z (decide (result = 0)) }
  let st := { st with status := setBit st.status STATUS_BIT_V (getBit value 6) }
  some { st with status := setBit st.status STATUS_BIT_N (getBit value 7) }

/-- CPU::cmp.  reg_a.wrapping_sub(value) on u8 is + 256 - value mod 256. -/
def cmp (st : CPU) (mode : AddressingMode) : Option CPU := do
  let addr ← st.get_operand_address mode
  let value ← st.mem_read addr
  let result := (st.reg_a + 256 - value % 256) % 256
  let st := { st with status := setBit st.status STATUS_BIT_Z (decide (st.reg_a = value)) }
  let st := { st with status := setBit st.status STATUS_BIT_C (decide (st.reg_a ≥ value)) }
  some { st with status := setBit st.status STATUS_BIT_N (getBit result MSB) }

/-- CPU::cpx. -/
def cpx (st : CPU) (mode : AddressingMode) : Option CPU := do
  let addr ← st.get_operand_address mode
  let value ← st.mem_read addr
  let result := (st.index_reg_x + 256 - value % 256) % 256
  let st := { st with status := setBit st.status STATUS_BIT_Z (decide (st.index_reg_x = value)) }
  let st := { st with status := setBit st.status STATUS_BIT_C (decide (st.index_reg_x ≥ value)) }
  some { st with status := setBit st.status STATUS_BIT_N (getBit result MSB) }

/-- CPU::cpy. -/
def cpy (st : CPU) (mode : AddressingMode) : Option CPU := do
  let addr ← st.get_operand_address mode
  let value ← st.mem_read addr
  let result := (st.index_reg_y + 256 - value % 256) % 256
  let st := { st with status := setBit st.status STATUS_BIT_Z (decide (st.index_reg_y = value)) }
  let st := { st with status := setBit st.status STATUS_BIT_C (decide (st.index_reg_y ≥ value)) }
  some { st with status := setBit st.status STATUS_BIT_N (getBit result MSB) }

/-- CPU::dec. -/
def dec (st : CPU) (mode : AddressingMode) : Option CPU := do
  let addr ← st.get_operand_address mode
  let value ← st.mem_read addr
  let value := (value + 255) % 256
  let st ← st.mem_write addr value
  some (st.update_zero_and_negative_flags value)

/-- CPU::inc. -/
def inc (st : CPU) (mode : AddressingMode) : Option CPU := do
  let addr ← st.get_operand_address mode
  let value ← st.mem_read addr
  let value := (value + 1) % 256
  let st ← st.mem_write addr value
  some (st.update_zero_and_negative_flags value)

/-- CPU::dex. -/
def dex (st : CPU) : CPU :=
  let st := { st with index_reg_x := (st.index_reg_x + 255) % 256 }
  st.update_zero_and_negative_flags st.index_reg_x

/-- CPU::dey. -/
def dey (st : CPU) : CPU :=
  let st := { st with index_reg_y := (st.index_reg_y + 255) % 256 }
  st.update_zero_and_negative_flags st.index_reg_y

/-- CPU::eor. -/
def eor (st : CPU) (mode : AddressingMode) : Option CPU := do
  let addr ← st.get_operand_address mode
  let value ← st.mem_read addr
  let st := { st with reg_a := st.reg_a ^^^ value }
  some (st.update_zero_and_negative_flags st.reg_a)

/-- CPU::ora. -/
def ora (st : CPU) (mode : AddressingMode) : Option CPU := do
  let addr ← st.get_operand_address mode
  let value ← st.mem_read addr
  let st := { st with reg_a := st.reg_a ||| value }
  some (st.update_zero_and_negative_flags st.reg_a)

/-- CPU::rol_accumulator: value = old << 1; C = bit 7 of old; bit 0 of value
is set to bit 7 of old (the source feeds the old MSB, not the previous
carry, into the vacated bit). -/
def rol_accumulator (st : CPU) : CPU :=
  let old := st.reg_a
  let value := (old <<< 1) % 256
  let st := { st with status := setBit st.status STATUS_BIT_C (getBit old MSB) }
  let value := setBit value 0 (getBit old MSB)
  let st := { st with reg_a := value }
  st.update_zero_and_negative_flags st.reg_a

/-- CPU::rol (memory operand), same bit handling as rol_accumulator. -/
def rol (st : CPU) (mode : AddressingMode) : Option CPU := do
  let addr ← st.get_operand_address mode
  let old ← st.mem_read addr
  let value := (old <<< 1) % 256
  let st := { st with status := setBit st.status STATUS_BIT_C (getBit old MSB) }
  let value := setBit value 0 (getBit old MSB)
  let st ← st.mem_write addr value
  some (st.update_zero_and_negative_flags value)

/-- CPU::ror_accumulator: value = old >> 1; C = bit 0 of old; bit 7 of value
is set to bit 0 of old (again the old bit, not the previous carry). -/
def ror_accumulator (st : CPU) : CPU :=
  let old := st.reg_a
  let value := old >>> 1
  let st := { st with status := setBit st.status STATUS_BIT_C (getBit old 0) }
  let value := setBit value MSB (getBit old 0)
  let st := { st with reg_a := value }
  st.update_zero_and_negative_flags st.reg_a

/-- CPU::ror (memory operand). -/
def ror (st : CPU) (mode : AddressingMode) : Option CPU := do
  let addr ← st.get_operand_address mode
  let old ← st.mem_read addr
  let value := old >>> 1
  let st := { st with status := setBit st.status STATUS_BIT_C (getBit old 0) }
  let value := setBit value MSB (getBit old 0)
  let st ← st.mem_write addr value
  some (st.update_zero_and_negative_flags value)

/-- CPU::jsr: push pc + 2 - 1, then pc = little-endian word at pc. -/
def jsr (st : CPU) : Option CPU := do
  let st ← st.stack_push_u16 ((st.pc + 2 - 1) % 65536)
  let target ← st.mem_read_u16 st.pc
  some { st with pc := target }

/-- CPU::rti: pop status, then pop pc. -/
def rti (st : CPU) : Option CPU := do
  let (s, st) ← st.stack_pop
  let st := { st with status := s }
  let (p, st) ← st.stack_pop_u16
  some { st with pc := p }

/-- CPU::rts: pop pc and add 1. -/
def rts (st : CPU) : Option CPU := do
  let (p, st) ← st.stack_pop_u16
  some { st with pc := (p + 1) % 65536 }

/-- Advance pc by n bytes (u16 add). -/
def advance (st : CPU) (n : Nat) : CPU := { st with pc := (st.pc + n) % 65536 }

end CPU

/-- Outcome of the dispatch match inside the run loop: the 0x00 arm returns
Ok(()) directly, a panic (array out of bounds, the NoneAddressing panic, or
the catch-all todo arm) aborts, every other arm continues. -/
inductive ExecResult where
  | next (st : CPU)
  | halt (st : CPU)
  | panicked

namespace ExecResult

/-- Lift an instruction that the source follows with
pc += (opcode.len - 1). -/
def ofOpAdv (r : Option CPU) (n : Nat) : ExecResult :=
  match r with
  | some st => .next (st.advance n)
  | none => .panicked

/-- Lift an instruction whose match arm does not touch pc afterwards. -/
def ofOp (r : Option CPU) : ExecResult :=
  match r with
  | some st => .next st
  | none => .panicked

end ExecResult

namespace CPU

/-- Body of the match on the opcode byte in CPU::run_with_callback.  Arms
whose source also executes self.pc += (opcode.len - 1) use ofOpAdv; the
catch-all arm is todo!(), a panic. -/
def dispatch (code : Nat) (op : OpCode) (st : CPU) : ExecResult :=
  match code with
  | 0xA9 | 0xA5 | 0xB5 | 0xAD | 0xBD | 0xB9 | 0xA1 | 0xB1 =>
      .ofOpAdv (st.lda op.mode) (op.len - 1)
  | 0xa2 | 0xa6 | 0xb6 | 0xae | 0xbe =>
      .ofOpAdv (st.ldx op.mode) (op.len - 1)
  | 0xa0 | 0xa4 | 0xb4 | 0xac | 0xbc =>
      .ofOpAdv (st.ldy op.mode) (op.len - 1)
  | 0x85 | 0x95 | 0x8d | 0x9d | 0x99 | 0x81 | 0x91 =>
      .ofOpAdv (st.sta op.mode) (op.len - 1)
  | 0x86 | 0x96 | 0x8e =>
      .ofOpAdv (st.stx op.mode) (op.len - 1)
  | 0x84 | 0x94 | 0x8c =>
      .ofOpAdv (st.sty op.mode) (op.len - 1)
  | 0x69 | 0x65 | 0x75 | 0x6d | 0x7d | 0x79 | 0x61 | 0x71 =>
      .ofOpAdv (st.adc op.mode) (op.len - 1)
  | 0x29 | 0x25 | 0x35 | 0x2d | 0x3d | 0x39 | 0x21 | 0x31 =>
      .ofOpAdv (st.andA op.mode) (op.len - 1)
  | 0x0a => .next ((st.asl_accumulator).advance (op.len - 1))
  | 0x06 | 0x16 | 0x0e | 0x1e =>
      .ofOpAdv (st.asl op.mode) (op.len - 1)
  | 0x4a => .next st.lsr_accumulator
  | 0x46 | 0x56 | 0x4e | 0x5e => .ofOp (st.lsr op.mode)
  | 0x90 => .ofOp (st.branch (!(getBit st.status STATUS_BIT_C)))
  | 0xb0 => .ofOp (st.branch (getBit st.status STATUS_BIT_C))
  | 0xf0 => .ofOp (st.branch (getBit st.status STATUS_BIT_Z))
  | 0x30 => .ofOp (st.branch (getBit st.status STATUS_BIT_N))
  | 0xd0 => .ofOp (st.branch (!(getBit st.status STATUS_BIT_Z)))
  | 0x10 => .ofOp (st.branch (!(getBit st.status STATUS_BIT_N)))
  | 0x50 => .ofOp (st.branch (!(getBit st.status STATUS_BIT_V)))
  | 0x70 => .ofOp (st.branch (getBit st.status STATUS_BIT_V))
  | 0x24 | 0x2c => .ofOpAdv (st.bit op.mode) (op.len - 1)
  | 0xc9 | 0xc5 | 0xd5 | 0xcd | 0xdd | 0xd9 | 0xc1 | 0xd1 =>
      .ofOpAdv (st.cmp op.mode) (op.len - 1)
  | 0xe0 | 0xe4 | 0xec =>
      .ofOpAdv (st.cpx op.mode) (op.len - 1)
  | 0xc0 | 0xc4 | 0xcc =>
      .ofOpAdv (st.cpy op.mode) (op.len - 1)
  | 0xc6 | 0xd6 | 0xce | 0xde =>
      .ofOpAdv (st.dec op.mode) (op.len - 1)
  | 0xe6 | 0xf6 | 0xee | 0xfe =>
      .ofOpAdv (st.inc op.mode) (op.len - 1)
  | 0xca => .next ((st.dex).advance (op.len - 1))
  | 0x88 => .next ((st.dey).advance (op.len - 1))
  | 0x49 | 0x45 | 0x55 | 0x4d | 0x5d | 0x59 | 0x41 | 0x51 =>
      .ofOpAdv (st.eor op.mode) (op.len - 1)
  | 0x09 | 0x05 | 0x15 | 0x0d | 0x1d | 0x19 | 0x01 | 0x11 =>
      .ofOpAdv (st.ora op.mode) (op.len - 1)
  | 0xe9 | 0xe5 | 0xf5 | 0xed | 0xfd | 0xf9 | 0xe1 | 0xf1 =>
      .ofOpAdv (st.sbc op.mode) (op.len - 1)
  | 0x2a => .next st.rol_accumulator
  | 0x26 | 0x36 | 0x2e | 0x3e =>
      .ofOpAdv (st.rol op.mode) (op.len - 1)
  | 0x6a => .next st.ror_accumulator
  | 0x66 | 0x76 | 0x6e | 0x7e =>
      .ofOpAdv (st.ror op.mode) (op.len - 1)
  | 0x18 => .next { st with status := setBit st.status STATUS_BIT_C false }
  | 0xd8 => .next { st with status := setBit st.status STATUS_BIT_D false }
  | 0x58 => .next { st with status := setBit st.status STATUS_BIT_I false }
  | 0x38 => .next { st with status := setBit st.status STATUS_BIT_C true }
  | 0xf8 => .next { st with status := setBit st.status STATUS_BIT_D true }
  | 0x78 => .next { st with status := setBit st.status STATUS_BIT_I true }
  | 0xAA => .next st.tax
  | 0x8A => .next st.txa
  | 0xE8 => .next st.inx
  | 0xc8 => .next st.iny
  | 0x20 => .ofOp st.jsr
  | 0x4c =>
      .ofOp (do
        let addr ← st.mem_read_u16 st.pc
        some { st with pc := addr })
  | 0x6c =>
      .ofOp (do
        let addr ← st.mem_read_u16 st.pc
        let indirect_ref ←
          if addr &&& 0x00FF = 0x00FF then do
            let lo ← st.mem_read addr
            let hi ← st.mem_read (addr &&& 0xFF00)
            some (hi <<< 8 ||| lo)
          else st.mem_read_u16 addr
        some { st with pc := indirect_ref })
  | 0x40 => .ofOp st.rti
  | 0x60 => .ofOp st.rts
  | 0x48 => .ofOp (st.stack_push st.reg_a)
  | 0x08 => .ofOp (st.stack_push st.status)
  | 0x68 =>
      .ofOp (do
        let (v, st) ← st.stack_pop
        some { st with reg_a := v })
  | 0x28 =>
      .ofOp (do
        let (v, st) ← st.stack_pop
        some { st with status := v })
  | 0xea => .next st
  | 0x00 => .halt st
  | _ => .panicked

end CPU

/-- Outcome of one iteration of the loop in CPU::run_with_callback. -/
inductive StepOutcome where
  | next (st : CPU)
  | halted (st : CPU)
  | decodeFault (st : CPU)
  | hookAbort (st : CPU)
  | panicked

/-- The per-step hook (FnMut(&mut CPU) -> io::Result<()>): it may mutate the
state; none models an Err return. -/
def Hook : Type := CPU → Option CPU

/-- The trivial hook |_| Ok(()) used by CPU::run. -/
def okHook : Hook := fun st => some st

namespace CPU

/-- One iteration of the loop in CPU::run_with_callback: call the hook, fetch
the opcode byte at pc, advance pc past it, look the byte up in the opcode
table, dispatch, and finally re-advance pc by the operand length whenever the
arm left pc equal to its post-fetch value. -/
def step (hook : Hook) (st : CPU) : StepOutcome :=
  match hook st with
  | none => .hookAbort st
  | some st =>
    match st.mem_read st.pc with
    | none => .panicked
    | some code =>
      let st := st.advance 1
      let pc_state := st.pc
      match opcodeLookup code with
      | none => .decodeFault st
      | some op =>
        match dispatch code op st with
        | .halt st => .halted st
        | .panicked => .panicked
        | .next st =>
          .next (if pc_state = st.pc then st.advance (op.len - 1) else st)

/-- Result of CPU::run_with_callback, with explicit fuel standing in for an
unbounded loop (outOfFuel is a model artifact, never reached by the concrete
executions below). -/
inductive RunResult where
  | ok (st : CPU)
  | decodeFault (st : CPU)
  | hookAbort (st : CPU)
  | panicked
  | outOfFuel (st : CPU)

/-- CPU::run_with_callback: loop step until Ok (0x00), a typed failure
(decode fault or hook abort), or a panic. -/
def run_with_callback (hook : Hook) : Nat → CPU → RunResult
  | 0, st => .outOfFuel st
  | fuel + 1, st =>
    match step hook st with
    | .next st => run_with_callback hook fuel st
    | .halted st => .ok st
    | .decodeFault st => .decodeFault st
    | .hookAbort st => .hookAbort st
    | .panicked => .panicked

/-- CPU::run: run_with_callback(|_| Ok(())).unwrap().  unwrap panics on the
Err variants, so only the Ok outcome yields a state (none models the
panic). -/
def run (fuel : Nat) (st : CPU) : Option CPU :=
  match run_with_callback okHook fuel st with
  | .ok st => some st
  | _ => none

end CPU

end Nes


namespace Nes

/-- All-zero memory image. -/
def zeroMem : Nat → Nat := fun _ => 0

/-- A freshly constructed processor (CPU::new). -/
def baseState : CPU := ⟨0, 0, STACK_RESET, 0, 0, 0, zeroMem⟩

/-- Accumulator 0 with the Carry flag set: input for the rotate claims. -/
def rolDemo : CPU := { baseState with reg_a := 0, status := 1 }

/-- A taken 2-byte branch at 0x0600 with displacement byte 0xFF (-1):
BNE (0xd0) with the Zero flag clear. -/
def branchDemo : CPU :=
  { baseState with
    pc := 0x0600
    memory := fun i => if i = 0x0600 then 0xd0 else if i = 0x0601 then 0xFF else 0 }

/-- The same taken branch with displacement byte 0x01. -/
def branchDemo1 : CPU :=
  { baseState with
    pc := 0x0600
    memory := fun i => if i = 0x0600 then 0xd0 else if i = 0x0601 then 0x01 else 0 }

/-- Next fetched opcode is 0xA8 (TAY, an official 6502 instruction). -/
def tayDemo : CPU := { baseState with memory := fun _ => 0xA8 }

/-- Next fetched opcode is 0x02, which is not a documented 6502 opcode. -/
def badOpcodeDemo : CPU := { baseState with memory := fun _ => 0x02 }

/-- A hook that always reports an external failure. -/
def failHook : Hook := fun _ => none

/-- Claim C2: the claim asserts that single-byte reads and writes succeed at
every 16-bit address including 0xFFFF.  The memory array is declared
[u8; 0xFFFF], i.e. 65535 bytes, so index 0xFFFF is out of bounds: a read or
write at 0xFFFF panics, while 0xFFFE still succeeds. -/
theorem mem_access_fails_at_FFFF :
    CPU.mem_read baseState 0xFFFF = none ∧
    (CPU.mem_write baseState 0xFFFF 0).isSome = false ∧
    (CPU.mem_read baseState 0xFFFE).isSome = true ∧
    (CPU.mem_write baseState 0xFFFE 0).isSome = true :=
  ⟨rfl, rfl, rfl, rfl⟩

/-- Claim C3: the claim asserts that rotate-left feeds the previous Carry
flag into bit 0 of the result (and rotate-right feeds it into bit 7).  With
accumulator 0 and Carry set, the code instead leaves bit 0 (resp. bit 7) of
the result clear, because rol/ror feed bit 7 (resp. bit 0) of the old value
into the vacated position, not the previous Carry. -/
theorem rol_ror_ignore_previous_carry :
    getBit rolDemo.status STATUS_BIT_C = true ∧
    (CPU.rol_accumulator rolDemo).reg_a.testBit 0 = false ∧
    (CPU.rol_accumulator rolDemo).reg_a = 0 ∧
    (CPU.ror_accumulator rolDemo).reg_a.testBit 7 = false ∧
    (CPU.ror_accumulator rolDemo).reg_a = 0 := by
  decide

/-- Claim C4: the claim asserts rotate-left then rotate-right (and the
reverse) restore both the accumulator and the Carry flag.  With accumulator
0 and Carry initially set, both compositions do restore the accumulator but
end with Carry clear, so the original Carry is not restored. -/
theorem rol_then_ror_loses_carry :
    getBit rolDemo.status STATUS_BIT_C = true ∧
    (CPU.ror_accumulator (CPU.rol_accumulator rolDemo)).reg_a = rolDemo.reg_a ∧
    getBit (CPU.ror_accumulator (CPU.rol_accumulator rolDemo)).status STATUS_BIT_C
      = false ∧
    (CPU.rol_accumulator (CPU.ror_accumulator rolDemo)).reg_a = rolDemo.reg_a ∧
    getBit (CPU.rol_accumulator (CPU.ror_accumulator rolDemo)).status STATUS_BIT_C
      = false := by
  decide

/-- Claim C6: the claim asserts a taken 2-byte branch at address p with
displacement d ends at (p + 2) + d, including d = -1.  For d = -1 the branch
action lands exactly on the post-fetch pc, so the loop's pc-unchanged check
fires and advances pc once more: the step ends at 0x0602 instead of the
0x0601 the claim requires.  With displacement +1 the taken branch ends at
0x0603 = (0x0600 + 2) + 1 as claimed. -/
theorem taken_branch_minus_one_extra_advance :
    ∃ s1 s2, CPU.step okHook branchDemo = .next s1 ∧ s1.pc = 0x0602 ∧
      CPU.step okHook branchDemo1 = .next s2 ∧ s2.pc = 0x0603 :=
  ⟨_, _, rfl, rfl, rfl, rfl⟩

/-- Claim C8: the claim asserts the loop terminates only by decode fault,
hook error, or success on opcode 0x00.  Opcode 0xA8 (TAY) is official, so the
spec-modelled table contains it, but the dispatch has no arm for it: the
catch-all todo!() arm panics, a third way out of the loop.  The other
conjuncts show the claimed exits behave as stated: a failing hook aborts with
the state untouched (before the pending opcode runs), and 0x00 halts
successfully. -/
theorem official_opcode_panics_instead_of_typed_failure :
    opcodeLookup 0xA8 = some ⟨1, .NoneAddressing⟩ ∧
    CPU.step okHook tayDemo = .panicked ∧
    CPU.step failHook tayDemo = .hookAbort tayDemo ∧
    CPU.step okHook baseState = .halted { baseState with pc := 1 } :=
  ⟨rfl, rfl, rfl, rfl⟩

/-- Claim C9: reset re-reads pc from the little-endian vector at 0xFFFC,
zeroes A, X and status, sets sp to 0xFD, and leaves memory unchanged. -/
theorem reset_spec (st : CPU) (hlo : st.memory 0xFFFC < 256) :
    ∃ st', CPU.reset st = some st' ∧
      st'.pc = 256 * st.memory 0xFFFD + st.memory 0xFFFC ∧
      st'.reg_a = 0 ∧ st'.index_reg_x = 0 ∧ st'.status = 0 ∧
      st'.sp = 0xFD ∧ ∀ a, st'.memory a = st.memory a := by
  refine ⟨_, rfl, ?_, rfl, rfl, rfl, rfl, fun a => rfl⟩
  show st.memory 0xFFFD <<< 8 ||| st.memory 0xFFFC
      = 256 * st.memory 0xFFFD + st.memory 0xFFFC
  have hlo8 : st.memory 0xFFFC < 2 ^ 8 := hlo
  have h := Nat.mul_add_lt_is_or hlo8 (st.memory 0xFFFD)
  rw [Nat.shiftLeft_eq, Nat.mul_comm, ← h]

/-- Witness for reset_spec at the fresh processor state. -/
theorem reset_spec_witness :
    ∃ st', CPU.reset baseState = some st' ∧
      st'.pc = 256 * baseState.memory 0xFFFD + baseState.memory 0xFFFC ∧
      st'.reg_a = 0 ∧ st'.index_reg_x = 0 ∧ st'.status = 0 ∧
      st'.sp = 0xFD ∧ ∀ a, st'.memory a = baseState.memory a :=
  reset_spec baseState (by decide)

/-- Claim C10: a program whose next opcode byte (0x02) has no table entry
makes run_with_callback return the decode-fault error, and CPU::run, which
unwraps that result, panics instead of returning: run yields no state. -/
theorem run_unwrap_panics_on_decode_fault :
    opcodeLookup 0x02 = none ∧
    CPU.run_with_callback okHook 1 badOpcodeDemo
      = .decodeFault { badOpcodeDemo with pc := 1 } ∧
    CPU.run 1 badOpcodeDemo = none :=
  ⟨rfl, rfl, rfl⟩

end Nes

namespace Nes

theorem status_bits_chain (s : Nat) (C V Z N : Bool) :
    (setBit (setBit (setBit (setBit s 0 C) 6 V) 1 Z) 7 N).testBit 0 = C ∧
    (setBit (setBit (setBit (setBit s 0 C) 6 V) 1 Z) 7 N).testBit 6 = V ∧
    (setBit (setBit (setBit (setBit s 0 C) 6 V) 1 Z) 7 N).testBit 1 = Z ∧
    (setBit (setBit (setBit (setBit s 0 C) 6 V) 1 Z) 7 N).testBit 7 = N := by
  refine ⟨?_, ?_, ?_, ?_⟩
  · rw [setBit_testBit_ne _ N (by decide) (by decide),
        setBit_testBit_ne _ Z (by decide) (by decide),
        setBit_testBit_ne _ V (by decide) (by decide),
        setBit_testBit_same _ C (by decide)]
  · rw [setBit_testBit_ne _ N (by decide) (by decide),
        setBit_testBit_ne _ Z (by decide) (by decide),
        setBit_testBit_same _ V (by decide)]
  · rw [setBit_testBit_ne _ N (by decide) (by decide),
        setBit_testBit_same _ Z (by decide)]
  · rw [setBit_testBit_same _ N (by decide)]

/-- Claim C7: pushing any byte and immediately pulling it returns exactly
that byte (no masking, so this covers status bytes with bits 4-5 set as well
as accumulator values) and restores the stack pointer. -/
theorem stack_push_pop_roundtrip (st : CPU) (d : Nat) (hsp : st.sp < 256) :
    ∃ st1 r st2, CPU.stack_push st d = some st1 ∧
      CPU.stack_pop st1 = some (r, st2) ∧ r = d ∧ st2.sp = st.sp := by
  have hlt : STACK_BASE + st.sp < MEMORY_LEN := by
    simp only [STACK_BASE, MEMORY_LEN]; omega
  have hsp2 : ((st.sp + 255) % 256 + 1) % 256 = st.sp := by omega
  refine ⟨{ st with
              memory := fun i => if i = STACK_BASE + st.sp then d else st.memory i,
              sp := (st.sp + 255) % 256 }, d,
          { st with
              memory := fun i => if i = STACK_BASE + st.sp then d else st.memory i,
              sp := ((st.sp + 255) % 256 + 1) % 256 }, ?_, ?_, rfl, hsp2⟩
  · unfold CPU.stack_push CPU.mem_write
    rw [if_pos hlt]
    rfl
  · unfold CPU.stack_pop CPU.mem_read
    simp only [hsp2]
    rw [if_pos hlt]
    simp [hsp2]

/-- Witness for stack_push_pop_roundtrip: push 0xFF (a status byte with every
bit, including bits 4-5, set) at sp = 0xFD. -/
theorem stack_push_pop_roundtrip_witness :
    ∃ st1 r st2, CPU.stack_push baseState 0xFF = some st1 ∧
      CPU.stack_pop st1 = some (r, st2) ∧ r = 0xFF ∧ st2.sp = baseState.sp :=
  stack_push_pop_roundtrip baseState 0xFF (by decide)

end Nes

namespace Nes

/-- Operand 0x50, accumulator 0x50, carry-in set: input for the adc claim. -/
def adcDemo : CPU :=
  { baseState with reg_a := 0x50, status := 1, memory := fun _ => 0x50 }

/-- Claim C1: add-with-carry sets the accumulator to the low 8 bits of
v + a + c, Carry iff v + a + c > 0xFF, Overflow iff bit 7 of
((result XOR v) AND (result XOR a)) where result is the truncated sum, Zero
iff the new accumulator is 0, and Negative to bit 7 of the new
accumulator. -/
theorem adc_immediate_spec (st : CPU) (hpc : st.pc < MEMORY_LEN) :
    ∃ st', CPU.adc st .Immediate = some st' ∧
      st'.reg_a
        = (st.memory st.pc + st.reg_a + (getBit st.status STATUS_BIT_C).toNat) % 256 ∧
      getBit st'.status STATUS_BIT_C
        = decide (st.memory st.pc + st.reg_a + (getBit st.status STATUS_BIT_C).toNat > 0xFF) ∧
      getBit st'.status STATUS_BIT_V
        = Nat.testBit
            (((st.memory st.pc + st.reg_a + (getBit st.status STATUS_BIT_C).toNat) % 256
                ^^^ st.memory st.pc) &&&
              ((st.memory st.pc + st.reg_a + (getBit st.status STATUS_BIT_C).toNat) % 256
                ^^^ st.reg_a)) 7 ∧
      getBit st'.status STATUS_BIT_Z = decide (st'.reg_a = 0) ∧
      getBit st'.status STATUS_BIT_N = Nat.testBit st'.reg_a 7 := by
  have hread : CPU.mem_read st st.pc = some (st.memory st.pc) := by
    unfold CPU.mem_read
    rw [if_pos hpc]
  obtain ⟨h0, h6, h1, h7⟩ := status_bits_chain st.status
    (decide (st.memory st.pc + st.reg_a + (getBit st.status STATUS_BIT_C).toNat > 0xFF))
    (decide ((((st.memory st.pc + st.reg_a + (getBit st.status STATUS_BIT_C).toNat) &&& 0xFF
        ^^^ st.memory st.pc) &&&
      ((st.memory st.pc + st.reg_a + (getBit st.status STATUS_BIT_C).toNat) &&& 0xFF
        ^^^ st.reg_a) &&& 0x80) ≠ 0))
    (decide ((st.memory st.pc + st.reg_a + (getBit st.status STATUS_BIT_C).toNat) &&& 0xFF = 0))
    (getBit ((st.memory st.pc + st.reg_a + (getBit st.status STATUS_BIT_C).toNat) &&& 0xFF)
      NEGATIVE_BIT)
  unfold CPU.adc CPU.get_operand_address
  simp only [Option.bind_eq_bind, Option.some_bind, hread]
  refine ⟨_, rfl, ?_, ?_, ?_, ?_, ?_⟩
  · exact and_255_eq_mod _
  · exact h0
  · refine h6.trans ?_
    rw [and_128_ne_zero, and_255_eq_mod]
  · exact h1
  · exact h7

/-- Witness for adc_immediate_spec: 0x50 + 0x50 + 1 = 0xA1 with signed
overflow set. -/
theorem adc_immediate_spec_witness :
    ∃ st', CPU.adc adcDemo .Immediate = some st' ∧
      st'.reg_a
        = (adcDemo.memory adcDemo.pc + adcDemo.reg_a
            + (getBit adcDemo.status STATUS_BIT_C).toNat) % 256 ∧
      getBit st'.status STATUS_BIT_C
        = decide (adcDemo.memory adcDemo.pc + adcDemo.reg_a
            + (getBit adcDemo.status STATUS_BIT_C).toNat > 0xFF) ∧
      getBit st'.status STATUS_BIT_V
        = Nat.testBit
            (((adcDemo.memory adcDemo.pc + adcDemo.reg_a
                  + (getBit adcDemo.status STATUS_BIT_C).toNat) % 256
                ^^^ adcDemo.memory adcDemo.pc) &&&
              ((adcDemo.memory adcDemo.pc + adcDemo.reg_a
                  + (getBit adcDemo.status STATUS_BIT_C).toNat) % 256
                ^^^ adcDemo.reg_a)) 7 ∧
      getBit st'.status STATUS_BIT_Z = decide (st'.reg_a = 0) ∧
      getBit st'.status STATUS_BIT_N = Nat.testBit st'.reg_a 7 :=
  adc_immediate_spec adcDemo (by decide)

end Nes

namespace Nes

/-- Modelled from the spec: "the one's-complement of the operand
(~operand)", the addend the subtract-with-carry contract prescribes. -/
def onesComplement (v : Nat) : Nat := v ^^^ 0xFF

/-- The state st with its operand byte (at pc) replaced by v. -/
def withOperand (st : CPU) (v : Nat) : CPU :=
  { st with memory := fun i => if i = st.pc then v else st.memory i }

set_option maxRecDepth 4000 in
theorem negSubOne_eq_onesComplement :
    ∀ v, v < 256 → CPU.negSubOneAsU8 v = onesComplement v := by decide

/-- Operand 0x30, accumulator 0x50, carry-in set: input for the sbc claim. -/
def sbcDemo : CPU :=
  { baseState with reg_a := 0x50, status := 1, memory := fun _ => 0x30 }

/-- Claim C5: subtract-with-carry yields exactly the accumulator and the
C/V/Z/N flags of add-with-carry applied to the one's-complement of the
operand with the same accumulator and carry-in: the operand transform
(value as i8).wrapping_neg().wrapping_sub(1) as u8 is NOT value, and the
remainder of sbc is identical to adc. -/
theorem sbc_matches_adc_of_onesComplement (st : CPU) (hpc : st.pc < MEMORY_LEN)
    (hv : st.memory st.pc < 256) :
    ∃ s1 s2, CPU.sbc st .Immediate = some s1 ∧
      CPU.adc (withOperand st (onesComplement (st.memory st.pc))) .Immediate
        = some s2 ∧
      s1.reg_a = s2.reg_a ∧ s1.status = s2.status := by
  have hread1 : CPU.mem_read st st.pc = some (st.memory st.pc) := by
    unfold CPU.mem_read
    rw [if_pos hpc]
  have hread2 : CPU.mem_read (withOperand st (onesComplement (st.memory st.pc)))
      st.pc = some (onesComplement (st.memory st.pc)) := by
    simp [CPU.mem_read, withOperand, hpc]
  have hns := negSubOne_eq_onesComplement (st.memory st.pc) hv
  unfold CPU.sbc CPU.adc CPU.get_operand_address
  simp only [withOperand, Option.bind_eq_bind, Option.some_bind, hread1]
  simp only [withOperand] at hread2
  simp only [hread2, Option.some_bind, hns]
  exact ⟨_, _, rfl, rfl, rfl, rfl⟩

/-- Witness for sbc_matches_adc_of_onesComplement: 0x50 - 0x30 with carry
set gives 0x20 both ways. -/
theorem sbc_matches_adc_witness :
    ∃ s1 s2, CPU.sbc sbcDemo .Immediate = some s1 ∧
      CPU.adc (withOperand sbcDemo (onesComplement (sbcDemo.memory sbcDemo.pc)))
        .Immediate = some s2 ∧
      s1.reg_a = s2.reg_a ∧ s1.status = s2.status :=
  sbc_matches_adc_of_onesComplement sbcDemo (by decide) (by decide)

end Nes
